import Mathlib

/-!
Verification of the sequential tool-orchestration core of the RAG chatbot
(`backend/ai_generator.py`, class `AIGenerator`).

The embedding models the Anthropic message protocol shallowly:

* `ContentBlock` mirrors the content blocks of a model response as the code
  consumes them (fields `type`, `text`, `name`, `input`, `id`; attribute
  access is total, as it is for the mock objects of the repository's own
  test suite).
* A model client is a function from the call index and the request
  parameters to either a response or a raised exception message
  (`Except String Response`); a tool manager maps a tool name and keyword
  arguments to a result string or a raised exception message.
* Python mutates message lists in place, so message lists live in a small
  store (`Store`) of list cells addressed by natural numbers; `.copy()`
  allocates a fresh cell.  A `World` couples the store with the number of
  model calls made so far.
* Each embedded operation additionally returns the trace the tests observe:
  the requests sent to the model and the tool calls executed, per round.
-/

/-- Keyword arguments of a tool call, as an association list. -/
abbrev ToolInput := List (String × String)

/-- A content block of a model response (`response.content[i]`). -/
structure ContentBlock where
  type : String
  text : String
  name : String
  input : ToolInput
  id : String
deriving DecidableEq

/-- A model response: `stop_reason` and the list of content blocks. -/
structure Response where
  stop_reason : String
  content : List ContentBlock
deriving DecidableEq

/-- A tool result dictionary built by `_execute_tools`. -/
structure ToolResult where
  type : String
  tool_use_id : String
  content : String
deriving DecidableEq

/-- The `content` entry of a conversation message: a plain string, the
content blocks of an assistant turn, or a list of tool results. -/
inductive MessageContent where
  | text (s : String)
  | blocks (bs : List ContentBlock)
  | results (rs : List ToolResult)
deriving DecidableEq

/-- One conversation turn (`{"role": ..., "content": ...}`). -/
structure Message where
  role : String
  content : MessageContent
deriving DecidableEq

/-- A tool definition is opaque to the orchestrator; only its presence
matters. -/
abbrev ToolDef := String

/-- The value of an API parameter dictionary at the moment it is passed to
`client.messages.create`.  `tools = none` / `tool_choice = none` model the
absence of the corresponding keys. -/
structure RequestParams where
  model : String
  temperature : Nat
  max_tokens : Nat
  messages : List Message
  system : String
  tools : Option (List ToolDef)
  tool_choice : Option String
deriving DecidableEq

/-- A store of message-list cells; Python message lists are mutable objects,
addressed here by their index. -/
abbrev Store := List (List Message)

/-- Read a cell (out-of-range reads give `[]`; all refs used are live). -/
def Store.read : Store → Nat → List Message
  | [], _ => []
  | v :: _, 0 => v
  | _ :: rest, n + 1 => Store.read rest n

/-- Overwrite a cell in place. -/
def Store.write : Store → Nat → List Message → Store
  | [], _, _ => []
  | _ :: rest, 0, v => v :: rest
  | x :: rest, n + 1, v => x :: Store.write rest n v

/-- Allocate a fresh cell (models `list.copy()` creating a new object). -/
def Store.alloc (s : Store) (v : List Message) : Nat × Store :=
  (s.length, s ++ [v])

/-- Mutable world threaded through the orchestrator: the store of message
lists and the number of model calls made so far. -/
structure World where
  store : Store
  calls : Nat
deriving DecidableEq

/-- A tool manager: `execute_tool(name, **kwargs)` returns a result string
or raises (`Except.error` carries the exception message). -/
abbrev ToolManager := String → ToolInput → Except String String

/-- A model client: `messages.create` as a function of the index of the call
(0 for the first call made) and the request parameters; `Except.error`
carries the message of a raised exception. -/
abbrev Client := Nat → RequestParams → Except String Response

/-- The API parameter values currently denoted by a parameter dictionary
whose `messages` key holds a reference into the store. -/
structure RequestParamsRef where
  model : String
  temperature : Nat
  max_tokens : Nat
  messagesRef : Nat
  system : String
  tools : Option (List ToolDef)
  tool_choice : Option String
deriving DecidableEq

/-- Dereference a parameter dictionary into the value the client receives. -/
def RequestParamsRef.value (bp : RequestParamsRef) (s : Store) : RequestParams :=
  { model := bp.model, temperature := bp.temperature, max_tokens := bp.max_tokens,
    messages := Store.read s bp.messagesRef, system := bp.system,
    tools := bp.tools, tool_choice := bp.tool_choice }

/-- `AIGenerator._execute_tools` (lines 108-144): walk the response's content
blocks; for each block of type `"tool_use"` call the tool manager and append
one tool-result dictionary, converting a raised exception into the
`"Tool execution error: <message>"` fallback content.  The second component
is the trace of tool invocations actually made, in order. -/
def execute_tools (tm : ToolManager) : List ContentBlock → List ToolResult × List (String × ToolInput)
  | [] => ([], [])
  | cb :: rest =>
    let r := execute_tools tm rest
    if cb.type = "tool_use" then
      (({ type := "tool_result", tool_use_id := cb.id,
          content :=
            match tm cb.name cb.input with
            | Except.ok tool_result => tool_result
            | Except.error e => "Tool execution error: " ++ e } : ToolResult) :: r.1,
       (cb.name, cb.input) :: r.2)
    else r

/-- Final text extraction of the sequential handler (lines 199-204):
the first content block's text, or the sentinel for an empty content list. -/
def response_text (r : Response) : String :=
  match r.content with
  | [] => "No response generated"
  | cb :: _ => cb.text

/-- Result of the sequential handler, together with its observable trace:
the requests sent to the model inside the loop and, per executed round, the
tool calls made. -/
structure SeqOut where
  text : String
  loopRequests : List RequestParams
  toolLog : List (List (String × ToolInput))
deriving DecidableEq

/-- The parameters of a re-submitted model call inside the sequential loop
(lines 186-190): `{**base_params, "messages": messages, "system":
base_params["system"]}` — every field of `base_params` except `messages`. -/
def seq_next_params (bp : RequestParamsRef) (msgs : List Message) : RequestParams :=
  { model := bp.model, temperature := bp.temperature, max_tokens := bp.max_tokens,
    messages := msgs, system := bp.system, tools := bp.tools,
    tool_choice := bp.tool_choice }

/-- The `while round_count < max_rounds and current_response.stop_reason ==
"tool_use"` loop of `_handle_sequential_tool_execution` (lines 169-204).
`fuel` is `max_rounds - round_count` (so the guard `round_count < max_rounds`
is `fuel > 0`), `round_count` the number of completed rounds, `msgsRef` the
cell holding the working copy of the message list. -/
def seq_loop (client : Client) (bp : RequestParamsRef) (tm : ToolManager)
    (msgsRef : Nat) : Nat → Nat → Response → World → SeqOut × World
  | 0, _, current_response, w =>
    ({ text := response_text current_response, loopRequests := [], toolLog := [] }, w)
  | fuel + 1, round_count, current_response, w =>
    if current_response.stop_reason = "tool_use" then
      let s1 := Store.write w.store msgsRef
        (Store.read w.store msgsRef ++
          [{ role := "assistant", content := MessageContent.blocks current_response.content }])
      let er := execute_tools tm current_response.content
      if er.1 = [] then
        ({ text := response_text current_response, loopRequests := [], toolLog := [] },
         { store := s1, calls := w.calls })
      else
        let s2 := Store.write s1 msgsRef
          (Store.read s1 msgsRef ++
            [{ role := "user", content := MessageContent.results er.1 }])
        let next_params := seq_next_params bp (Store.read s2 msgsRef)
        match client w.calls next_params with
        | Except.error e =>
          ({ text := "Error in tool execution round " ++ toString (round_count + 1) ++ ": " ++ e,
             loopRequests := [next_params], toolLog := [er.2] },
           { store := s2, calls := w.calls + 1 })
        | Except.ok resp =>
          let r := seq_loop client bp tm msgsRef fuel (round_count + 1) resp
            { store := s2, calls := w.calls + 1 }
          ({ text := r.1.text, loopRequests := next_params :: r.1.loopRequests,
             toolLog := er.2 :: r.1.toolLog }, r.2)
    else
      ({ text := response_text current_response, loopRequests := [], toolLog := [] }, w)

/-- `AIGenerator._handle_sequential_tool_execution` (lines 146-204): copy
`base_params["messages"]` into a fresh cell, then run the round-bounded
loop starting from the initial response with `round_count = 0`. -/
def handle_sequential_tool_execution (client : Client) (initial_response : Response)
    (bp : RequestParamsRef) (tm : ToolManager) (max_rounds : Nat) (w : World) :
    SeqOut × World :=
  let a := Store.alloc w.store (Store.read w.store bp.messagesRef)
  seq_loop client bp tm a.1 max_rounds 0 initial_response
    { store := a.2, calls := w.calls }

/-- Result of the legacy handler: final text, the parameters of its single
model call, and the tool calls it executed. -/
structure LegacyOut where
  text : String
  finalRequest : RequestParams
  toolCalls : List (String × ToolInput)
deriving DecidableEq

/-- `AIGenerator._handle_tool_execution` (lines 206-242): copy the message
list, append the assistant turn, execute the initial response's tools once,
append the result turn if non-empty, then make one model call built from
`{**self.base_params, "messages", "system"}` — hence without `tools` and
without `tool_choice` — and return its first content block's text.
`model` is `self.model`; `self.base_params` fixes `temperature = 0` and
`max_tokens = 800`.  A raised exception (a failing model call, or the
`IndexError` of `content[0]` on an empty content list) propagates as
`Except.error`. -/
def handle_tool_execution (client : Client) (initial_response : Response)
    (bp : RequestParamsRef) (tm : ToolManager) (model : String) (w : World) :
    Except String (LegacyOut × World) :=
  let a := Store.alloc w.store (Store.read w.store bp.messagesRef)
  let s1 := Store.write a.2 a.1
    (Store.read a.2 a.1 ++
      [{ role := "assistant", content := MessageContent.blocks initial_response.content }])
  let er := execute_tools tm initial_response.content
  let s2 :=
    if er.1 = [] then s1
    else Store.write s1 a.1
      (Store.read s1 a.1 ++ [{ role := "user", content := MessageContent.results er.1 }])
  let final_params : RequestParams :=
    { model := model, temperature := 0, max_tokens := 800,
      messages := Store.read s2 a.1, system := bp.system,
      tools := none, tool_choice := none }
  match client w.calls final_params with
  | Except.error e => Except.error e
  | Except.ok final_response =>
    match final_response.content with
    | [] => Except.error "IndexError: list index out of range"
    | cb :: _ =>
      Except.ok ({ text := cb.text, finalRequest := final_params, toolCalls := er.2 },
                 { store := s2, calls := w.calls + 1 })

/-- Python truthiness of an optional string (`if conversation_history:`). -/
def strTruthy : Option String → Bool
  | none => false
  | some s => !s.isEmpty

/-- Python truthiness of an optional list (`if tools:`). -/
def listTruthy {α : Type} : Option (List α) → Bool
  | none => false
  | some l => !l.isEmpty

/-- The static system prompt `AIGenerator.SYSTEM_PROMPT` (lines 10-43). -/
def SYSTEM_PROMPT : String :=
  " You are an AI assistant specialized in course materials and educational content with access to comprehensive tools for course information.\n\nAvailable Tools:\n1. **search_course_content**: For searching specific course content and materials\n2. **get_course_outline**: For getting course structure, including title, course link, and complete lesson list with numbers and titles\n\nTool Usage Guidelines:\n- Use **search_course_content** for questions about specific course content or detailed educational materials\n- Use **get_course_outline** for questions about course structure, lesson lists, course overview, or syllabus information\n- **Up to 2 tool call rounds per query maximum** - you can make additional tool calls after seeing initial results\n- Synthesize tool results into accurate, fact-based responses\n- If tools yield no results, state this clearly without offering alternatives\n\nSequential Tool Strategy:\n- First round: Use tools to gather initial information\n- Second round (optional): Refine search or gather additional details based on first round results\n- Consider whether additional tool calls will improve your response quality\n- Examples: Get course outline first, then search specific lessons; Search one topic, then compare with another\n\nResponse Protocol:\n- **General knowledge questions**: Answer using existing knowledge without searching\n- **Course-specific questions**: Search first, then answer\n- **No meta-commentary**:\n - Provide direct answers only — no reasoning process, search explanations, or question-type analysis\n - Do not mention \"based on the search results\"\n\n\nAll responses must be:\n1. **Brief, Concise and focused** - Get to the point quickly\n2. **Educational** - Maintain instructional value\n3. **Clear** - Use accessible language\n4. **Example-supported** - Include relevant examples when they aid understanding\nProvide only the direct answer to what was asked.\n"

/-- Result of `generate_response`: final text, every request sent to the
model in order, the per-round tool-call trace, and the reference of the
`messages` list built for the initial request (for framing statements). -/
structure GenOut where
  text : String
  requests : List RequestParams
  toolCalls : List (List (String × ToolInput))
  msgsRef : Nat
deriving DecidableEq

/-- The sequential handler as dynamically dispatched through the instance
(`self._handle_sequential_tool_execution` is an attribute the repository's
test suite replaces with a raising stub); `Except.error` is a raised
exception, caught by `generate_response`. -/
abbrev SeqHandler :=
  Client → Response → RequestParamsRef → ToolManager → Nat → World →
    Except String (SeqOut × World)

/-- The real sequential handler never raises in this embedding. -/
def default_seq_handler : SeqHandler :=
  fun client r bp tm max_rounds w =>
    Except.ok (handle_sequential_tool_execution client r bp tm max_rounds w)

/-- `AIGenerator.generate_response` (lines 52-106), parameterized by the
dispatched sequential handler: build the system content (history section
appended iff a truthy history is supplied), allocate the message list with
the sole user turn, attach `tools` and `tool_choice = "auto"` iff a truthy
tools argument is supplied, make the initial model call, then dispatch on
`stop_reason` and the presence of a tool manager; a handler exception is
caught and the legacy handler invoked. -/
def generate_response_with (seqH : SeqHandler) (client : Client) (model : String)
    (query : String) (conversation_history : Option String)
    (tools : Option (List ToolDef)) (tool_manager : Option ToolManager)
    (w : World) : Except String (GenOut × World) :=
  let system_content :=
    if strTruthy conversation_history then
      SYSTEM_PROMPT ++ "\n\nPrevious conversation:\n" ++ conversation_history.getD ""
    else SYSTEM_PROMPT
  let a := Store.alloc w.store [{ role := "user", content := MessageContent.text query }]
  let bp : RequestParamsRef :=
    { model := model, temperature := 0, max_tokens := 800, messagesRef := a.1,
      system := system_content,
      tools := if listTruthy tools then tools else none,
      tool_choice := if listTruthy tools then some "auto" else none }
  let w1 : World := { store := a.2, calls := w.calls }
  let api_params := bp.value w1.store
  match client w1.calls api_params with
  | Except.error e => Except.error e
  | Except.ok response =>
    let w2 : World := { store := w1.store, calls := w1.calls + 1 }
    match tool_manager with
    | some tm =>
      if response.stop_reason = "tool_use" then
        match seqH client response bp tm 2 w2 with
        | Except.ok (out, w3) =>
          Except.ok ({ text := out.text, requests := api_params :: out.loopRequests,
                       toolCalls := out.toolLog, msgsRef := a.1 }, w3)
        | Except.error _e =>
          match handle_tool_execution client response bp tm model w2 with
          | Except.ok (lout, w3) =>
            Except.ok ({ text := lout.text,
                         requests := [api_params, lout.finalRequest],
                         toolCalls := [lout.toolCalls], msgsRef := a.1 }, w3)
          | Except.error e2 => Except.error e2
      else
        match response.content with
        | [] => Except.error "IndexError: list index out of range"
        | cb :: _ =>
          Except.ok ({ text := cb.text, requests := [api_params], toolCalls := [],
                       msgsRef := a.1 }, w2)
    | none =>
      match response.content with
      | [] => Except.error "IndexError: list index out of range"
      | cb :: _ =>
        Except.ok ({ text := cb.text, requests := [api_params], toolCalls := [],
                     msgsRef := a.1 }, w2)

/-- `generate_response` with the real sequential handler installed. -/
def generate_response (client : Client) (model : String) (query : String)
    (conversation_history : Option String) (tools : Option (List ToolDef))
    (tool_manager : Option ToolManager) (w : World) :
    Except String (GenOut × World) :=
  generate_response_with default_seq_handler client model query
    conversation_history tools tool_manager w

/-! ### Shared concrete fixtures (mirroring the repository's test mocks) -/

def fixtureToolBlock : ContentBlock :=
  { type := "tool_use", text := "partial", name := "search_course_content",
    input := [("query", "test")], id := "tool_1" }

def fixtureTextBlock : ContentBlock :=
  { type := "text", text := "final answer", name := "", input := [], id := "" }

def fixtureToolResponse : Response :=
  { stop_reason := "tool_use", content := [fixtureToolBlock] }

def fixtureEndResponse : Response :=
  { stop_reason := "end_turn", content := [fixtureTextBlock] }

/-- Stop reason `"tool_use"` but no tool-use block in the content. -/
def fixtureEmptyCallsResponse : Response :=
  { stop_reason := "tool_use", content := [fixtureTextBlock] }

def fixtureTm : ToolManager := fun _ _ => Except.ok "Mock search results"

def fixtureBp : RequestParamsRef :=
  { model := "test-model", temperature := 0, max_tokens := 800, messagesRef := 0,
    system := "system", tools := some ["search_course_content"],
    tool_choice := some "auto" }

def fixtureWorld : World :=
  { store := [[{ role := "user", content := MessageContent.text "test" }]], calls := 0 }

def fixtureClientTool : Client := fun _ _ => Except.ok fixtureToolResponse

def fixtureClientEnd : Client := fun _ _ => Except.ok fixtureEndResponse

def fixtureClientErr : Client := fun _ _ => Except.error "API call failed"

/-- First call answers with a tool-use request, later calls with the plain
end-turn response (the two-call client of the fallback test). -/
def fixtureClientSeq : Client := fun n _ =>
  if n = 0 then Except.ok fixtureToolResponse else Except.ok fixtureEndResponse

/-- A sequential handler stub that always raises (the patched method of
`test_fallback_to_legacy_execution`). -/
def fixtureFailingSeqHandler : SeqHandler :=
  fun _ _ _ _ _ _ => Except.error "Sequential method failed"


/-- The value of the working message list after one loop round appended the
assistant tool-use turn and the tool-result turn (used to phrase theorems
about the loop; `s` is the store at the start of the round). -/
def round_messages (s : Store) (msgsRef : Nat) (tm : ToolManager) (cur : Response) :
    List Message :=
  Store.read s msgsRef ++
    [{ role := "assistant", content := MessageContent.blocks cur.content },
     { role := "user", content := MessageContent.results (execute_tools tm cur.content).1 }]

/-- The request that `handle_sequential_tool_execution` re-submits in its
first round on the fixtures (used as a concrete witness input). -/
def fixtureLoopReq : RequestParams :=
  seq_next_params fixtureBp (round_messages
    (fixtureWorld.store ++ [Store.read fixtureWorld.store fixtureBp.messagesRef])
    fixtureWorld.store.length fixtureTm fixtureToolResponse)

/-! ### Store lemmas -/

theorem Store.write_write (s : Store) (r : Nat) (v v' : List Message) :
    Store.write (Store.write s r v) r v' = Store.write s r v' := by
  induction s generalizing r with
  | nil => rfl
  | cons x rest ih =>
    cases r with
    | zero => rfl
    | succ n => simp [Store.write, ih]

theorem Store.length_write (s : Store) (r : Nat) (v : List Message) :
    (Store.write s r v).length = s.length := by
  induction s generalizing r with
  | nil => rfl
  | cons x rest ih =>
    cases r with
    | zero => rfl
    | succ n => simpa [Store.write] using ih n

theorem Store.read_write_self (s : Store) (r : Nat) (v : List Message)
    (h : r < s.length) : Store.read (Store.write s r v) r = v := by
  induction s generalizing r with
  | nil => simp at h
  | cons x rest ih =>
    cases r with
    | zero => rfl
    | succ n =>
      simp only [Store.write, Store.read]
      exact ih n (by simpa using h)

theorem Store.read_write_ne (s : Store) (r r' : Nat) (v : List Message)
    (h : r' ≠ r) : Store.read (Store.write s r v) r' = Store.read s r' := by
  induction s generalizing r r' with
  | nil => rfl
  | cons x rest ih =>
    cases r with
    | zero =>
      cases r' with
      | zero => exact absurd rfl h
      | succ m => rfl
    | succ n =>
      cases r' with
      | zero => rfl
      | succ m =>
        simp only [Store.write, Store.read]
        exact ih n m (by omega)

theorem Store.read_append_self (s : Store) (v : List Message) :
    Store.read (s ++ [v]) s.length = v := by
  induction s with
  | nil => rfl
  | cons x rest ih => simpa [Store.read] using ih

theorem Store.read_append_ne (s : Store) (v : List Message) (r : Nat)
    (h : r ≠ s.length) : Store.read (s ++ [v]) r = Store.read s r := by
  induction s generalizing r with
  | nil =>
    cases r with
    | zero => exact absurd rfl h
    | succ m => simp [Store.read]
  | cons x rest ih =>
    cases r with
    | zero => rfl
    | succ m =>
      simp only [List.cons_append, Store.read]
      exact ih m (by simpa using h)

/-! ### execute_tools lemmas -/

theorem execute_tools_fst_nil_iff (tm : ToolManager) (c : List ContentBlock) :
    (execute_tools tm c).1 = [] ↔ ∀ cb ∈ c, cb.type ≠ "tool_use" := by
  induction c with
  | nil => simp [execute_tools]
  | cons cb rest ih =>
    by_cases hcb : cb.type = "tool_use"
    · simp [execute_tools, hcb]
    · simp [execute_tools, hcb, ih]

theorem execute_tools_snd_ne_nil (tm : ToolManager) (c : List ContentBlock)
    (h : ∃ cb ∈ c, cb.type = "tool_use") : (execute_tools tm c).2 ≠ [] := by
  induction c with
  | nil => simp at h
  | cons cb rest ih =>
    by_cases hcb : cb.type = "tool_use"
    · simp [execute_tools, hcb]
    · obtain ⟨b, hb, hbt⟩ := h
      rcases List.mem_cons.mp hb with h1 | h1
      · exact absurd (h1 ▸ hbt) hcb
      · simp only [execute_tools, if_neg hcb]
        exact ih ⟨b, h1, hbt⟩

theorem execute_tools_fst_ne_nil (tm : ToolManager) (c : List ContentBlock)
    (h : ∃ cb ∈ c, cb.type = "tool_use") : (execute_tools tm c).1 ≠ [] := by
  intro hnil
  obtain ⟨b, hb, hbt⟩ := h
  exact (execute_tools_fst_nil_iff tm c).mp hnil b hb hbt



/-! ### Claim C2 -/

/-- C2: `_execute_tools` produces exactly one tool-result entry per
`tool_use` content block of the response, in the same order, each carrying
that block's `id` as `tool_use_id`; a block whose execution raises gets the
content `"Tool execution error: <message>"` and every other block still
gets its own result. -/
theorem c2_one_result_per_tool_call (tm : ToolManager) (c : List ContentBlock) :
    (execute_tools tm c).1 =
      (c.filter (fun cb => cb.type == "tool_use")).map
        (fun cb =>
          { type := "tool_result", tool_use_id := cb.id,
            content :=
              match tm cb.name cb.input with
              | Except.ok r => r
              | Except.error e => "Tool execution error: " ++ e }) := by
  induction c with
  | nil => rfl
  | cons cb rest ih =>
    by_cases hcb : cb.type = "tool_use"
    · simp [execute_tools, hcb, ih]
    · simp [execute_tools, hcb, ih]

/-! ### Claim C7 -/

/-- C7: in any iteration of the sequential loop in which the current
response carries no `tool_use` block (so zero tool calls are executed), the
loop breaks immediately: no further model call is made, no tool call is
logged, and the handler returns the text extracted from the most recent
model response; only the assistant turn was appended to the working copy of
the message list. -/
theorem c7_empty_call_list_breaks (client : Client) (bp : RequestParamsRef)
    (tm : ToolManager) (msgsRef fuel round_count : Nat) (cur : Response) (w : World)
    (hstop : cur.stop_reason = "tool_use")
    (hno : ∀ cb ∈ cur.content, cb.type ≠ "tool_use") :
    seq_loop client bp tm msgsRef (fuel + 1) round_count cur w =
      ({ text := response_text cur, loopRequests := [], toolLog := [] },
       { store := Store.write w.store msgsRef (Store.read w.store msgsRef ++
           [{ role := "assistant", content := MessageContent.blocks cur.content }]),
         calls := w.calls }) := by
  have h1 : (execute_tools tm cur.content).1 = [] :=
    (execute_tools_fst_nil_iff tm cur.content).mpr hno
  simp [seq_loop, hstop, h1]

/-- Witness for C7 at a concrete loop state. -/
theorem c7_empty_call_list_breaks_witness :
    seq_loop fixtureClientEnd fixtureBp fixtureTm 0 2 0 fixtureEmptyCallsResponse fixtureWorld =
      ({ text := response_text fixtureEmptyCallsResponse, loopRequests := [], toolLog := [] },
       { store := Store.write fixtureWorld.store 0 (Store.read fixtureWorld.store 0 ++
           [{ role := "assistant",
              content := MessageContent.blocks fixtureEmptyCallsResponse.content }]),
         calls := fixtureWorld.calls }) :=
  c7_empty_call_list_breaks fixtureClientEnd fixtureBp fixtureTm 0 1 0
    fixtureEmptyCallsResponse fixtureWorld rfl (by decide)

/-! ### Claim C8 -/

/-- C8: at every terminal loop state of the sequential handler (the round
bound reached, i.e. zero remaining fuel, or a response that does not request
tool use), the returned text is the sentinel `"No response generated"` when
the terminal response's content list is empty, and the first content block's
text otherwise. -/
theorem c8_terminal_text (client : Client) (bp : RequestParamsRef)
    (tm : ToolManager) (msgsRef fuel round_count : Nat) (cur : Response) (w : World)
    (hterm : cur.stop_reason ≠ "tool_use" ∨ fuel = 0) :
    (cur.content = [] →
      (seq_loop client bp tm msgsRef fuel round_count cur w).1.text = "No response generated") ∧
    (∀ cb rest, cur.content = cb :: rest →
      (seq_loop client bp tm msgsRef fuel round_count cur w).1.text = cb.text) := by
  have htext : (seq_loop client bp tm msgsRef fuel round_count cur w).1.text =
      response_text cur := by
    cases fuel with
    | zero => simp [seq_loop]
    | succ n =>
      rcases hterm with h | h
      · simp [seq_loop, if_neg h]
      · exact absurd h (Nat.succ_ne_zero n)
  constructor
  · intro hc
    rw [htext, response_text, hc]
  · intro cb rest hc
    rw [htext, response_text, hc]

/-- Witness for C8 at a concrete terminal state (round bound exhausted,
non-empty content). -/
theorem c8_terminal_text_witness :
    (fixtureToolResponse.content = [] →
      (seq_loop fixtureClientTool fixtureBp fixtureTm 0 0 2 fixtureToolResponse fixtureWorld).1.text =
        "No response generated") ∧
    (∀ cb rest, fixtureToolResponse.content = cb :: rest →
      (seq_loop fixtureClientTool fixtureBp fixtureTm 0 0 2 fixtureToolResponse fixtureWorld).1.text =
        cb.text) :=
  c8_terminal_text fixtureClientTool fixtureBp fixtureTm 0 0 2 fixtureToolResponse
    fixtureWorld (Or.inr rfl)

/-- A loop round whose re-submitted model call raises: the loop returns
the round-error string with exactly this one call logged. -/
theorem seq_loop_step_err (client : Client) (bp : RequestParamsRef)
    (tm : ToolManager) (msgsRef fuel round_count : Nat) (cur : Response)
    (w : World) (m : String)
    (href : msgsRef < w.store.length)
    (hstop : cur.stop_reason = "tool_use")
    (htool : ∃ cb ∈ cur.content, cb.type = "tool_use")
    (herr : client w.calls (seq_next_params bp (round_messages w.store msgsRef tm cur)) =
      Except.error m) :
    seq_loop client bp tm msgsRef (fuel + 1) round_count cur w =
      ({ text := "Error in tool execution round " ++ toString (round_count + 1) ++ ": " ++ m,
         loopRequests := [seq_next_params bp (round_messages w.store msgsRef tm cur)],
         toolLog := [(execute_tools tm cur.content).2] },
       { store := Store.write w.store msgsRef (round_messages w.store msgsRef tm cur),
         calls := w.calls + 1 }) := by
  have hne := execute_tools_fst_ne_nil tm cur.content htool
  have hw : msgsRef <
      (Store.write w.store msgsRef (Store.read w.store msgsRef ++
        [{ role := "assistant", content := MessageContent.blocks cur.content }])).length := by
    rw [Store.length_write]; exact href
  simp only [seq_loop, if_pos hstop, if_neg hne,
    Store.read_write_self _ _ _ href, Store.read_write_self _ _ _ hw,
    Store.write_write, List.append_assoc, List.cons_append, List.nil_append]
  rw [show (Store.read w.store msgsRef ++
        ([{ role := "assistant", content := MessageContent.blocks cur.content },
          { role := "user",
            content := MessageContent.results (execute_tools tm cur.content).1 }] :
          List Message)) = round_messages w.store msgsRef tm cur from rfl]
  rw [herr]

/-! ### Claim C4 -/

/-- C4: if the re-submitted model call of a loop round (the round that
brings `round_count` to `round_count + 1`) raises with message `m`, the
sequential loop immediately returns the string
`"Error in tool execution round <k>: <m>"` for that round number: the
request log of the loop ends with exactly this one call, no further tool
round is executed, and no exception propagates (the loop returns normally). -/
theorem c4_round_error_text (client : Client) (bp : RequestParamsRef)
    (tm : ToolManager) (msgsRef fuel round_count : Nat) (cur : Response)
    (w : World) (m : String)
    (href : msgsRef < w.store.length)
    (hstop : cur.stop_reason = "tool_use")
    (htool : ∃ cb ∈ cur.content, cb.type = "tool_use")
    (herr : client w.calls (seq_next_params bp (round_messages w.store msgsRef tm cur)) =
      Except.error m) :
    seq_loop client bp tm msgsRef (fuel + 1) round_count cur w =
      ({ text := "Error in tool execution round " ++ toString (round_count + 1) ++ ": " ++ m,
         loopRequests := [seq_next_params bp (round_messages w.store msgsRef tm cur)],
         toolLog := [(execute_tools tm cur.content).2] },
       { store := Store.write w.store msgsRef (round_messages w.store msgsRef tm cur),
         calls := w.calls + 1 }) :=
  seq_loop_step_err client bp tm msgsRef fuel round_count cur w m href hstop htool herr

/-- Witness for C4: the client raises `"API call failed"` in round 1
(mirroring `test_sequential_tool_execution_api_error`). -/
theorem c4_round_error_text_witness :
    seq_loop fixtureClientErr fixtureBp fixtureTm 0 2 0 fixtureToolResponse fixtureWorld =
      ({ text := "Error in tool execution round " ++ toString (0 + 1) ++ ": " ++ "API call failed",
         loopRequests :=
           [seq_next_params fixtureBp (round_messages fixtureWorld.store 0 fixtureTm fixtureToolResponse)],
         toolLog := [(execute_tools fixtureTm fixtureToolResponse.content).2] },
       { store := Store.write fixtureWorld.store 0
           (round_messages fixtureWorld.store 0 fixtureTm fixtureToolResponse),
         calls := fixtureWorld.calls + 1 }) :=
  c4_round_error_text fixtureClientErr fixtureBp fixtureTm 0 1 0 fixtureToolResponse
    fixtureWorld "API call failed" (by decide) rfl (by decide) rfl


/-- One successful round of the sequential loop, as a rewriting step:
the loop appends the two turns, logs this round's request and tool calls,
and recurses on the model's next response with one unit of fuel spent. -/
theorem seq_loop_step_ok (client : Client) (bp : RequestParamsRef) (tm : ToolManager)
    (msgsRef fuel round_count : Nat) (cur resp1 : Response) (w : World)
    (href : msgsRef < w.store.length)
    (hstop : cur.stop_reason = "tool_use")
    (htool : ∃ cb ∈ cur.content, cb.type = "tool_use")
    (hcl : client w.calls (seq_next_params bp (round_messages w.store msgsRef tm cur)) =
      Except.ok resp1) :
    seq_loop client bp tm msgsRef (fuel + 1) round_count cur w =
      ({ text := (seq_loop client bp tm msgsRef fuel (round_count + 1) resp1
            { store := Store.write w.store msgsRef (round_messages w.store msgsRef tm cur),
              calls := w.calls + 1 }).1.text,
         loopRequests :=
           seq_next_params bp (round_messages w.store msgsRef tm cur) ::
             (seq_loop client bp tm msgsRef fuel (round_count + 1) resp1
               { store := Store.write w.store msgsRef (round_messages w.store msgsRef tm cur),
                 calls := w.calls + 1 }).1.loopRequests,
         toolLog :=
           (execute_tools tm cur.content).2 ::
             (seq_loop client bp tm msgsRef fuel (round_count + 1) resp1
               { store := Store.write w.store msgsRef (round_messages w.store msgsRef tm cur),
                 calls := w.calls + 1 }).1.toolLog },
       (seq_loop client bp tm msgsRef fuel (round_count + 1) resp1
         { store := Store.write w.store msgsRef (round_messages w.store msgsRef tm cur),
           calls := w.calls + 1 }).2) := by
  have hne := execute_tools_fst_ne_nil tm cur.content htool
  have hw : msgsRef <
      (Store.write w.store msgsRef (Store.read w.store msgsRef ++
        [{ role := "assistant", content := MessageContent.blocks cur.content }])).length := by
    rw [Store.length_write]; exact href
  simp only [seq_loop, if_pos hstop, if_neg hne,
    Store.read_write_self _ _ _ href, Store.read_write_self _ _ _ hw,
    Store.write_write, List.append_assoc, List.cons_append, List.nil_append]
  rw [show (Store.read w.store msgsRef ++
        ([{ role := "assistant", content := MessageContent.blocks cur.content },
          { role := "user",
            content := MessageContent.results (execute_tools tm cur.content).1 }] :
          List Message)) = round_messages w.store msgsRef tm cur from rfl]
  rw [hcl]

/-! ### Claim C1 -/

/-- C1: with a model client that always answers with a tool-use request
(stop reason `"tool_use"` and at least one `tool_use` block, i.e. an actual
tool-call request), the sequential handler with `max_rounds = 2` makes
exactly 2 model calls inside the loop, executes tool calls in exactly 2
rounds (each round's executed call list non-empty), and returns the text of
the last response received; the loop never runs a third time. -/
theorem c1_two_round_bound (client : Client) (resp : Nat → RequestParams → Response)
    (bp : RequestParamsRef) (tm : ToolManager) (init : Response) (w : World)
    (hclient : ∀ n p, client n p = Except.ok (resp n p))
    (hstop : ∀ n p, (resp n p).stop_reason = "tool_use")
    (htool : ∀ n p, ∃ cb ∈ (resp n p).content, cb.type = "tool_use")
    (hinit_stop : init.stop_reason = "tool_use")
    (hinit_tool : ∃ cb ∈ init.content, cb.type = "tool_use") :
    ∃ p1 p2 : RequestParams,
      (handle_sequential_tool_execution client init bp tm 2 w).1.loopRequests = [p1, p2] ∧
      (handle_sequential_tool_execution client init bp tm 2 w).2.calls = w.calls + 2 ∧
      (handle_sequential_tool_execution client init bp tm 2 w).1.toolLog =
        [(execute_tools tm init.content).2,
         (execute_tools tm (resp w.calls p1).content).2] ∧
      (execute_tools tm init.content).2 ≠ [] ∧
      (execute_tools tm (resp w.calls p1).content).2 ≠ [] ∧
      (handle_sequential_tool_execution client init bp tm 2 w).1.text =
        response_text (resp (w.calls + 1) p2) := by
  have hs0len : w.store.length <
      (w.store ++ [Store.read w.store bp.messagesRef]).length := by simp
  set mr : Nat := w.store.length with hmr
  set s0 : Store := w.store ++ [Store.read w.store bp.messagesRef] with hs0
  set W0 : World := { store := s0, calls := w.calls } with hW0
  set p1 := seq_next_params bp (round_messages s0 mr tm init) with hp1
  set r1 := resp w.calls p1 with hr1
  set s1 := Store.write s0 mr (round_messages s0 mr tm init) with hs1
  set W1 : World := { store := s1, calls := w.calls + 1 } with hW1
  have href1 : mr < s1.length := by rw [hs1, Store.length_write]; exact hs0len
  set p2 := seq_next_params bp (round_messages s1 mr tm r1) with hp2
  set r2 := resp (w.calls + 1) p2 with hr2
  have step1 := seq_loop_step_ok client bp tm mr 1 0 init r1 W0 hs0len hinit_stop
    hinit_tool (hclient w.calls p1)
  have step2 := seq_loop_step_ok client bp tm mr 0 1 r1 r2 W1 href1 (hstop w.calls p1)
    (htool w.calls p1) (hclient (w.calls + 1) p2)
  have m1 : handle_sequential_tool_execution client init bp tm 2 w =
      seq_loop client bp tm mr (1 + 1) 0 init W0 := rfl
  have eW : seq_loop client bp tm mr 1 (0 + 1) r1
      { store := Store.write W0.store mr (round_messages W0.store mr tm init),
        calls := W0.calls + 1 } =
      seq_loop client bp tm mr (0 + 1) 1 r1 W1 := rfl
  have base : seq_loop client bp tm mr 0 (1 + 1) r2
      { store := Store.write W1.store mr (round_messages W1.store mr tm r1),
        calls := W1.calls + 1 } =
      ({ text := response_text r2, loopRequests := [], toolLog := [] },
       { store := Store.write W1.store mr (round_messages W1.store mr tm r1),
         calls := W1.calls + 1 }) := rfl
  have main : handle_sequential_tool_execution client init bp tm 2 w =
      ({ text := response_text r2, loopRequests := [p1, p2],
         toolLog := [(execute_tools tm init.content).2, (execute_tools tm r1.content).2] },
       { store := Store.write W1.store mr (round_messages W1.store mr tm r1),
         calls := w.calls + 1 + 1 }) := by
    rw [m1, step1, eW, step2, base]
  refine ⟨p1, p2, ?_, ?_, ?_, ?_, ?_, ?_⟩
  · rw [main]
  · rw [main]
  · rw [main]
  · exact execute_tools_snd_ne_nil tm init.content hinit_tool
  · exact execute_tools_snd_ne_nil tm r1.content (htool w.calls p1)
  · rw [main]

/-- Witness for C1: the constant always-tool-use client of
`test_sequential_tool_execution_max_rounds_limit`. -/
theorem c1_two_round_bound_witness :
    ∃ p1 p2 : RequestParams,
      (handle_sequential_tool_execution fixtureClientTool fixtureToolResponse fixtureBp
        fixtureTm 2 fixtureWorld).1.loopRequests = [p1, p2] ∧
      (handle_sequential_tool_execution fixtureClientTool fixtureToolResponse fixtureBp
        fixtureTm 2 fixtureWorld).2.calls = fixtureWorld.calls + 2 ∧
      (handle_sequential_tool_execution fixtureClientTool fixtureToolResponse fixtureBp
        fixtureTm 2 fixtureWorld).1.toolLog =
        [(execute_tools fixtureTm fixtureToolResponse.content).2,
         (execute_tools fixtureTm
           ((fun _ _ => fixtureToolResponse : Nat → RequestParams → Response)
             fixtureWorld.calls p1).content).2] ∧
      (execute_tools fixtureTm fixtureToolResponse.content).2 ≠ [] ∧
      (execute_tools fixtureTm
        ((fun _ _ => fixtureToolResponse : Nat → RequestParams → Response)
          fixtureWorld.calls p1).content).2 ≠ [] ∧
      (handle_sequential_tool_execution fixtureClientTool fixtureToolResponse fixtureBp
        fixtureTm 2 fixtureWorld).1.text =
        response_text ((fun _ _ => fixtureToolResponse : Nat → RequestParams → Response)
          (fixtureWorld.calls + 1) p2) :=
  by
  have h : ∃ cb ∈ fixtureToolResponse.content, cb.type = "tool_use" := by decide
  exact c1_two_round_bound fixtureClientTool (fun _ _ => fixtureToolResponse) fixtureBp
    fixtureTm fixtureToolResponse fixtureWorld (fun _ _ => rfl) (fun _ _ => rfl)
    (fun _ _ => h) rfl h

theorem exists_tool_use_of_fst_ne_nil (tm : ToolManager) (c : List ContentBlock)
    (h : (execute_tools tm c).1 ≠ []) : ∃ cb ∈ c, cb.type = "tool_use" := by
  by_contra hno
  push_neg at hno
  exact h ((execute_tools_fst_nil_iff tm c).mpr hno)

/-- Every request sent inside the sequential loop agrees with `base_params`
on every field but `messages`, and its messages extend the working list the
loop started from by at least one turn. -/
theorem seq_loop_requests_frame (client : Client) (bp : RequestParamsRef)
    (tm : ToolManager) (msgsRef : Nat) (fuel : Nat) :
    ∀ round_count cur w, msgsRef < w.store.length →
    ∀ req ∈ (seq_loop client bp tm msgsRef fuel round_count cur w).1.loopRequests,
      req.model = bp.model ∧ req.temperature = bp.temperature ∧
      req.max_tokens = bp.max_tokens ∧ req.system = bp.system ∧
      req.tools = bp.tools ∧ req.tool_choice = bp.tool_choice ∧
      ∃ extra, extra ≠ [] ∧ req.messages = Store.read w.store msgsRef ++ extra := by
  induction fuel with
  | zero =>
    intro rc cur w href req hreq
    simp [seq_loop] at hreq
  | succ n ih =>
    intro rc cur w href req hreq
    by_cases hstop : cur.stop_reason = "tool_use"
    · by_cases hres : (execute_tools tm cur.content).1 = []
      · simp [seq_loop, if_pos hstop, hres] at hreq
      · have htool := exists_tool_use_of_fst_ne_nil tm cur.content hres
        cases hcl : client w.calls (seq_next_params bp (round_messages w.store msgsRef tm cur)) with
        | error m =>
          rw [seq_loop_step_err client bp tm msgsRef n rc cur w m href hstop htool hcl]
            at hreq
          simp at hreq
          subst hreq
          refine ⟨rfl, rfl, rfl, rfl, rfl, rfl,
            ⟨[{ role := "assistant", content := MessageContent.blocks cur.content },
              { role := "user",
                content := MessageContent.results (execute_tools tm cur.content).1 }],
             by simp, rfl⟩⟩
        | ok resp1 =>
          rw [seq_loop_step_ok client bp tm msgsRef n rc cur resp1 w href hstop htool hcl]
            at hreq
          simp only [List.mem_cons] at hreq
          rcases hreq with rfl | hmem
          · refine ⟨rfl, rfl, rfl, rfl, rfl, rfl,
              ⟨[{ role := "assistant", content := MessageContent.blocks cur.content },
                { role := "user",
                  content := MessageContent.results (execute_tools tm cur.content).1 }],
               by simp, rfl⟩⟩
          · have href2 : msgsRef <
                (Store.write w.store msgsRef (round_messages w.store msgsRef tm cur)).length := by
              rw [Store.length_write]; exact href
            obtain ⟨h1, h2, h3, h4, h5, h6, extra, hne, hmsg⟩ :=
              ih (rc + 1) resp1
                { store := Store.write w.store msgsRef (round_messages w.store msgsRef tm cur),
                  calls := w.calls + 1 } href2 req hmem
            refine ⟨h1, h2, h3, h4, h5, h6,
              ⟨[{ role := "assistant", content := MessageContent.blocks cur.content },
                { role := "user",
                  content := MessageContent.results (execute_tools tm cur.content).1 }] ++ extra,
               by simp, ?_⟩⟩
            rw [hmsg]
            simp only [World.store]
            rw [Store.read_write_self _ _ _ href]
            simp [round_messages, List.append_assoc]
    · simp [seq_loop, if_neg hstop] at hreq

/-! ### Claim C5 -/

/-- C5: every re-submitted model call of the sequential handler carries
request parameters identical to the initial call's in every field except
`messages` — same model, temperature, max_tokens, system text, tool
definitions and tool_choice mode — and its `messages` is the accumulated
conversation: the original messages of `base_params` extended by at least
one appended turn. -/
theorem c5_resubmit_params_frame (client : Client) (init : Response)
    (bp : RequestParamsRef) (tm : ToolManager) (max_rounds : Nat) (w : World)
    (req : RequestParams)
    (hreq : req ∈
      (handle_sequential_tool_execution client init bp tm max_rounds w).1.loopRequests) :
    req.model = bp.model ∧ req.temperature = bp.temperature ∧
    req.max_tokens = bp.max_tokens ∧ req.system = bp.system ∧
    req.tools = bp.tools ∧ req.tool_choice = bp.tool_choice ∧
    ∃ extra, extra ≠ [] ∧
      req.messages = Store.read w.store bp.messagesRef ++ extra := by
  have href : w.store.length <
      (w.store ++ [Store.read w.store bp.messagesRef]).length := by simp
  have h := seq_loop_requests_frame client bp tm w.store.length max_rounds 0 init
    { store := w.store ++ [Store.read w.store bp.messagesRef], calls := w.calls }
    href req hreq
  rwa [show Store.read
      ({ store := w.store ++ [Store.read w.store bp.messagesRef],
         calls := w.calls } : World).store w.store.length =
      Store.read w.store bp.messagesRef from Store.read_append_self w.store _] at h

/-- Witness for C5 at the first-round request of a concrete run. -/
theorem c5_resubmit_params_frame_witness :
    fixtureLoopReq ∈
      (handle_sequential_tool_execution fixtureClientEnd fixtureToolResponse fixtureBp
        fixtureTm 2 fixtureWorld).1.loopRequests ∧
    (fixtureLoopReq.model = fixtureBp.model ∧
     fixtureLoopReq.temperature = fixtureBp.temperature ∧
     fixtureLoopReq.max_tokens = fixtureBp.max_tokens ∧
     fixtureLoopReq.system = fixtureBp.system ∧
     fixtureLoopReq.tools = fixtureBp.tools ∧
     fixtureLoopReq.tool_choice = fixtureBp.tool_choice ∧
     ∃ extra, extra ≠ [] ∧
       fixtureLoopReq.messages =
         Store.read fixtureWorld.store fixtureBp.messagesRef ++ extra) :=
  ⟨by decide,
   c5_resubmit_params_frame fixtureClientEnd fixtureToolResponse fixtureBp fixtureTm 2
     fixtureWorld fixtureLoopReq (by decide)⟩

/-! ### Claim C6 -/

/-- C6: when the model's first response does not have stop reason
`"tool_use"` (and has a first content block), `generate_response` makes
exactly one model call, executes no tools, and returns that first content
block's text directly — for any tools argument and any tool manager. -/
theorem c6_direct_fast_path (client : Client) (model query : String)
    (hist : Option String) (tools : Option (List ToolDef))
    (tool_manager : Option ToolManager) (w : World) (r : Response)
    (cb : ContentBlock) (rest : List ContentBlock)
    (hcl : ∀ p, client w.calls p = Except.ok r)
    (hstop : r.stop_reason ≠ "tool_use")
    (hcontent : r.content = cb :: rest) :
    ∃ p0, generate_response client model query hist tools tool_manager w =
      Except.ok
        ({ text := cb.text, requests := [p0], toolCalls := [],
           msgsRef := w.store.length },
         { store := w.store ++ [[{ role := "user", content := MessageContent.text query }]],
           calls := w.calls + 1 }) := by
  cases tool_manager with
  | none =>
    refine ⟨RequestParamsRef.value
      { model := model, temperature := 0, max_tokens := 800, messagesRef := w.store.length,
        system := if strTruthy hist then
            SYSTEM_PROMPT ++ "\n\nPrevious conversation:\n" ++ hist.getD ""
          else SYSTEM_PROMPT,
        tools := if listTruthy tools then tools else none,
        tool_choice := if listTruthy tools then some "auto" else none }
      (w.store ++ [[{ role := "user", content := MessageContent.text query }]]), ?_⟩
    simp only [generate_response, generate_response_with, Store.alloc]
    rw [hcl]
    simp [hcontent]
  | some tm =>
    refine ⟨RequestParamsRef.value
      { model := model, temperature := 0, max_tokens := 800, messagesRef := w.store.length,
        system := if strTruthy hist then
            SYSTEM_PROMPT ++ "\n\nPrevious conversation:\n" ++ hist.getD ""
          else SYSTEM_PROMPT,
        tools := if listTruthy tools then tools else none,
        tool_choice := if listTruthy tools then some "auto" else none }
      (w.store ++ [[{ role := "user", content := MessageContent.text query }]]), ?_⟩
    simp only [generate_response, generate_response_with, Store.alloc]
    rw [hcl]
    simp [hstop, hcontent]

/-- Witness for C6: a client answering with a plain end-turn response. -/
theorem c6_direct_fast_path_witness :
    ∃ p0, generate_response fixtureClientEnd "test-model" "What is machine learning?"
        none (some ["search_course_content"]) (some fixtureTm) fixtureWorld =
      Except.ok
        ({ text := fixtureTextBlock.text, requests := [p0], toolCalls := [],
           msgsRef := fixtureWorld.store.length },
         { store := fixtureWorld.store ++
             [[{ role := "user",
                 content := MessageContent.text "What is machine learning?" }]],
           calls := fixtureWorld.calls + 1 }) :=
  c6_direct_fast_path fixtureClientEnd "test-model" "What is machine learning?" none
    (some ["search_course_content"]) (some fixtureTm) fixtureWorld fixtureEndResponse
    fixtureTextBlock [] (fun _ => rfl) (by decide) rfl

/-! ### Claim C9 -/

/-- C9: whenever `generate_response` returns, the first model request it
made holds exactly one user turn with the query as `messages`; it carries
the tool definitions together with `tool_choice = "auto"` iff a truthy
(non-empty) tools argument was supplied, and carries neither otherwise; and
its system text is the fixed system prompt, extended by the
previous-conversation section exactly when a truthy (non-empty) history
string is supplied. -/
theorem c9_initial_request_shape (client : Client) (model query : String)
    (hist : Option String) (tools : Option (List ToolDef))
    (tool_manager : Option ToolManager) (w : World) (out : GenOut) (w2 : World)
    (hok : generate_response client model query hist tools tool_manager w =
      Except.ok (out, w2)) :
    ∃ p0 rest, out.requests = p0 :: rest ∧
      p0.messages = [{ role := "user", content := MessageContent.text query }] ∧
      (listTruthy tools = true → p0.tools = tools ∧ p0.tool_choice = some "auto") ∧
      (listTruthy tools = false → p0.tools = none ∧ p0.tool_choice = none) ∧
      (strTruthy hist = true →
        p0.system = SYSTEM_PROMPT ++ "\n\nPrevious conversation:\n" ++ hist.getD "") ∧
      (strTruthy hist = false → p0.system = SYSTEM_PROMPT) := by
  simp only [generate_response, generate_response_with, Store.alloc] at hok
  split at hok
  · exact Except.noConfusion hok
  · split at hok
    · split at hok
      · split at hok
        · simp only [Except.ok.injEq, Prod.mk.injEq] at hok
          obtain ⟨hout, hw⟩ := hok
          subst hout
          refine ⟨_, _, rfl, ?_, ?_, ?_, ?_, ?_⟩
          · exact Store.read_append_self w.store _
          · intro h; simp [RequestParamsRef.value, h]
          · intro h; simp [RequestParamsRef.value, h]
          · intro h; simp [RequestParamsRef.value, h]
          · intro h; simp [RequestParamsRef.value, h]
        · split at hok
          · simp only [Except.ok.injEq, Prod.mk.injEq] at hok
            obtain ⟨hout, hw⟩ := hok
            subst hout
            refine ⟨_, _, rfl, ?_, ?_, ?_, ?_, ?_⟩
            · exact Store.read_append_self w.store _
            · intro h; simp [RequestParamsRef.value, h]
            · intro h; simp [RequestParamsRef.value, h]
            · intro h; simp [RequestParamsRef.value, h]
            · intro h; simp [RequestParamsRef.value, h]
          · exact Except.noConfusion hok
      · split at hok
        · exact Except.noConfusion hok
        · simp only [Except.ok.injEq, Prod.mk.injEq] at hok
          obtain ⟨hout, hw⟩ := hok
          subst hout
          refine ⟨_, _, rfl, ?_, ?_, ?_, ?_, ?_⟩
          · exact Store.read_append_self w.store _
          · intro h; simp [RequestParamsRef.value, h]
          · intro h; simp [RequestParamsRef.value, h]
          · intro h; simp [RequestParamsRef.value, h]
          · intro h; simp [RequestParamsRef.value, h]
    · split at hok
      · exact Except.noConfusion hok
      · simp only [Except.ok.injEq, Prod.mk.injEq] at hok
        obtain ⟨hout, hw⟩ := hok
        subst hout
        refine ⟨_, _, rfl, ?_, ?_, ?_, ?_, ?_⟩
        · exact Store.read_append_self w.store _
        · intro h; simp [RequestParamsRef.value, h]
        · intro h; simp [RequestParamsRef.value, h]
        · intro h; simp [RequestParamsRef.value, h]
        · intro h; simp [RequestParamsRef.value, h]

/-- Witness for C9 on a concrete run (tools supplied, no history). -/
theorem c9_initial_request_shape_witness :
    ∃ p0 rest,
      ({ text := "final answer",
         requests := [{ model := "test-model", temperature := 0, max_tokens := 800,
                        messages := [{ role := "user", content := MessageContent.text "q" }],
                        system := SYSTEM_PROMPT, tools := some ["search_course_content"],
                        tool_choice := some "auto" }],
         toolCalls := [], msgsRef := 1 } : GenOut).requests = p0 :: rest ∧
      p0.messages = [{ role := "user", content := MessageContent.text "q" }] ∧
      (listTruthy (some ["search_course_content"]) = true →
        p0.tools = some ["search_course_content"] ∧ p0.tool_choice = some "auto") ∧
      (listTruthy (some ["search_course_content"]) = false →
        p0.tools = none ∧ p0.tool_choice = none) ∧
      (strTruthy none = true →
        p0.system = SYSTEM_PROMPT ++ "\n\nPrevious conversation:\n" ++
          (none : Option String).getD "") ∧
      (strTruthy none = false → p0.system = SYSTEM_PROMPT) :=
  c9_initial_request_shape fixtureClientEnd "test-model" "q" none
    (some ["search_course_content"]) (some fixtureTm) fixtureWorld
    { text := "final answer",
      requests := [{ model := "test-model", temperature := 0, max_tokens := 800,
                     messages := [{ role := "user", content := MessageContent.text "q" }],
                     system := SYSTEM_PROMPT, tools := some ["search_course_content"],
                     tool_choice := some "auto" }],
      toolCalls := [], msgsRef := 1 }
    { store := [[{ role := "user", content := MessageContent.text "test" }],
                [{ role := "user", content := MessageContent.text "q" }]], calls := 1 }
    rfl

/-! ### Claim C3 -/

/-- C3: if the dispatched sequential handler raises (no matter with what
message), `generate_response` catches the exception and returns exactly the
result of the legacy single-round handler; that legacy run executes the
initial response's tool calls once, makes one further model call whose
request carries no tool definitions and no tool_choice, and returns that
call's first content block's text. -/
theorem c3_fallback_to_legacy (seqH : SeqHandler) (client : Client)
    (model query : String) (hist : Option String) (tools : Option (List ToolDef))
    (tm : ToolManager) (w : World) (r0 r1 : Response) (cb : ContentBlock)
    (rest : List ContentBlock) (err : String)
    (hseq : ∀ c r bp tmm mr ww, seqH c r bp tmm mr ww = Except.error err)
    (hcl0 : ∀ p, client w.calls p = Except.ok r0)
    (hr0 : r0.stop_reason = "tool_use")
    (hcl1 : ∀ p, client (w.calls + 1) p = Except.ok r1)
    (hr1 : r1.content = cb :: rest) :
    ∃ lout w3,
      handle_tool_execution client r0
        { model := model, temperature := 0, max_tokens := 800,
          messagesRef := w.store.length,
          system := if strTruthy hist then
              SYSTEM_PROMPT ++ "\n\nPrevious conversation:\n" ++ hist.getD ""
            else SYSTEM_PROMPT,
          tools := if listTruthy tools then tools else none,
          tool_choice := if listTruthy tools then some "auto" else none } tm model
        { store := w.store ++ [[{ role := "user", content := MessageContent.text query }]],
          calls := w.calls + 1 } = Except.ok (lout, w3) ∧
      generate_response_with seqH client model query hist tools (some tm) w =
        Except.ok
          ({ text := lout.text,
             requests :=
               [RequestParamsRef.value
                 { model := model, temperature := 0, max_tokens := 800,
                   messagesRef := w.store.length,
                   system := if strTruthy hist then
                       SYSTEM_PROMPT ++ "\n\nPrevious conversation:\n" ++ hist.getD ""
                     else SYSTEM_PROMPT,
                   tools := if listTruthy tools then tools else none,
                   tool_choice := if listTruthy tools then some "auto" else none }
                 (w.store ++ [[{ role := "user", content := MessageContent.text query }]]),
                lout.finalRequest],
             toolCalls := [lout.toolCalls], msgsRef := w.store.length }, w3) ∧
      lout.text = cb.text ∧
      lout.toolCalls = (execute_tools tm r0.content).2 ∧
      lout.finalRequest.tools = none ∧
      lout.finalRequest.tool_choice = none ∧
      w3.calls = w.calls + 2 := by
  have hleg : ∃ lout w3,
      handle_tool_execution client r0
        { model := model, temperature := 0, max_tokens := 800,
          messagesRef := w.store.length,
          system := if strTruthy hist then
              SYSTEM_PROMPT ++ "\n\nPrevious conversation:\n" ++ hist.getD ""
            else SYSTEM_PROMPT,
          tools := if listTruthy tools then tools else none,
          tool_choice := if listTruthy tools then some "auto" else none } tm model
        { store := w.store ++ [[{ role := "user", content := MessageContent.text query }]],
          calls := w.calls + 1 } = Except.ok (lout, w3) ∧
      lout.text = cb.text ∧
      lout.toolCalls = (execute_tools tm r0.content).2 ∧
      lout.finalRequest.tools = none ∧
      lout.finalRequest.tool_choice = none ∧
      w3.calls = w.calls + 2 := by
    simp only [handle_tool_execution, Store.alloc]
    rw [hcl1]
    simp only [hr1]
    exact ⟨_, _, rfl, rfl, rfl, rfl, rfl, rfl⟩
  obtain ⟨lout, w3, hlegeq, htext, htc, htools, hchoice, hcalls⟩ := hleg
  refine ⟨lout, w3, hlegeq, ?_, htext, htc, htools, hchoice, hcalls⟩
  simp only [generate_response_with, Store.alloc]
  rw [hcl0]
  simp only [hr0, if_true]
  rw [hseq]
  rw [hlegeq]

/-- Witness for C3: the patched-raising handler and two-call client of the
fallback test. -/
theorem c3_fallback_to_legacy_witness :
    ∃ lout w3,
      handle_tool_execution fixtureClientSeq fixtureToolResponse
        { model := "test-model", temperature := 0, max_tokens := 800,
          messagesRef := fixtureWorld.store.length,
          system := if strTruthy none then
              SYSTEM_PROMPT ++ "\n\nPrevious conversation:\n" ++ (none : Option String).getD ""
            else SYSTEM_PROMPT,
          tools := if listTruthy (some ["search_course_content"]) then
              some ["search_course_content"] else none,
          tool_choice := if listTruthy (some ["search_course_content"]) then
              some "auto" else none } fixtureTm "test-model"
        { store := fixtureWorld.store ++
            [[{ role := "user", content := MessageContent.text "Test query" }]],
          calls := fixtureWorld.calls + 1 } = Except.ok (lout, w3) ∧
      generate_response_with fixtureFailingSeqHandler fixtureClientSeq "test-model"
        "Test query" none (some ["search_course_content"]) (some fixtureTm) fixtureWorld =
        Except.ok
          ({ text := lout.text,
             requests :=
               [RequestParamsRef.value
                 { model := "test-model", temperature := 0, max_tokens := 800,
                   messagesRef := fixtureWorld.store.length,
                   system := if strTruthy none then
                       SYSTEM_PROMPT ++ "\n\nPrevious conversation:\n" ++
                         (none : Option String).getD ""
                     else SYSTEM_PROMPT,
                   tools := if listTruthy (some ["search_course_content"]) then
                       some ["search_course_content"] else none,
                   tool_choice := if listTruthy (some ["search_course_content"]) then
                       some "auto" else none }
                 (fixtureWorld.store ++
                   [[{ role := "user", content := MessageContent.text "Test query" }]]),
                lout.finalRequest],
             toolCalls := [lout.toolCalls], msgsRef := fixtureWorld.store.length }, w3) ∧
      lout.text = fixtureTextBlock.text ∧
      lout.toolCalls = (execute_tools fixtureTm fixtureToolResponse.content).2 ∧
      lout.finalRequest.tools = none ∧
      lout.finalRequest.tool_choice = none ∧
      w3.calls = fixtureWorld.calls + 2 :=
  c3_fallback_to_legacy fixtureFailingSeqHandler fixtureClientSeq "test-model" "Test query"
    none (some ["search_course_content"]) fixtureTm fixtureWorld fixtureToolResponse
    fixtureEndResponse fixtureTextBlock [] "Sequential method failed"
    (fun _ _ _ _ _ _ => rfl) (fun _ => rfl) rfl (fun _ => rfl) rfl

/-- The sequential loop writes only its own working cell: every other
store cell is unchanged. -/
theorem seq_loop_store_frame (client : Client) (bp : RequestParamsRef)
    (tm : ToolManager) (msgsRef : Nat) (fuel : Nat) :
    ∀ round_count cur w r', msgsRef < w.store.length → r' ≠ msgsRef →
    Store.read (seq_loop client bp tm msgsRef fuel round_count cur w).2.store r' =
      Store.read w.store r' := by
  induction fuel with
  | zero => intro rc cur w r' href hne; simp [seq_loop]
  | succ n ih =>
    intro rc cur w r' href hne
    by_cases hstop : cur.stop_reason = "tool_use"
    · by_cases hres : (execute_tools tm cur.content).1 = []
      · simp only [seq_loop, if_pos hstop, hres, if_true]
        exact Store.read_write_ne _ _ _ _ hne
      · have htool := exists_tool_use_of_fst_ne_nil tm cur.content hres
        cases hcl : client w.calls
            (seq_next_params bp (round_messages w.store msgsRef tm cur)) with
        | error m =>
          rw [seq_loop_step_err client bp tm msgsRef n rc cur w m href hstop htool hcl]
          exact Store.read_write_ne _ _ _ _ hne
        | ok resp1 =>
          rw [seq_loop_step_ok client bp tm msgsRef n rc cur resp1 w href hstop htool hcl]
          have href2 : msgsRef <
              (Store.write w.store msgsRef (round_messages w.store msgsRef tm cur)).length := by
            rw [Store.length_write]; exact href
          rw [ih (rc + 1) resp1
            { store := Store.write w.store msgsRef (round_messages w.store msgsRef tm cur),
              calls := w.calls + 1 } r' href2 hne]
          exact Store.read_write_ne _ _ _ _ hne
    · simp [seq_loop, if_neg hstop]

/-- The sequential handler never changes any live cell of the caller's
store: it works on a fresh copy. -/
theorem handler_store_frame (client : Client) (init : Response) (bp : RequestParamsRef)
    (tm : ToolManager) (max_rounds : Nat) (w : World) (r' : Nat)
    (h : r' < w.store.length) :
    Store.read (handle_sequential_tool_execution client init bp tm max_rounds w).2.store r' =
      Store.read w.store r' := by
  have h1 := seq_loop_store_frame client bp tm w.store.length max_rounds 0 init
    { store := w.store ++ [Store.read w.store bp.messagesRef], calls := w.calls } r'
    (by simp) (Nat.ne_of_lt h)
  exact h1.trans (Store.read_append_ne w.store _ r' (Nat.ne_of_lt h))

/-! ### Claim C10 -/

/-- C10: neither tool-handling path ever mutates the message list held in
the caller's `base_params`: the sequential handler leaves the caller's
messages cell untouched, the legacy handler leaves the caller's messages
cell untouched, and after `generate_response` returns, the messages list it
built for the initial request still contains exactly the single initial
user turn. -/
theorem c10_base_params_messages_unchanged :
    (∀ (client : Client) (init : Response) (bp : RequestParamsRef) (tm : ToolManager)
       (max_rounds : Nat) (w : World), bp.messagesRef < w.store.length →
       Store.read
           (handle_sequential_tool_execution client init bp tm max_rounds w).2.store
           bp.messagesRef =
         Store.read w.store bp.messagesRef) ∧
    (∀ (client : Client) (init : Response) (bp : RequestParamsRef) (tm : ToolManager)
       (model : String) (w : World) (lout : LegacyOut) (w3 : World),
       handle_tool_execution client init bp tm model w = Except.ok (lout, w3) →
       bp.messagesRef < w.store.length →
       Store.read w3.store bp.messagesRef = Store.read w.store bp.messagesRef) ∧
    (∀ (client : Client) (model query : String) (hist : Option String)
       (tools : Option (List ToolDef)) (tmo : Option ToolManager) (w : World)
       (out : GenOut) (w2 : World),
       generate_response client model query hist tools tmo w = Except.ok (out, w2) →
       Store.read w2.store out.msgsRef =
         [{ role := "user", content := MessageContent.text query }]) := by
  refine ⟨?_, ?_, ?_⟩
  · intro client init bp tm max_rounds w href
    exact handler_store_frame client init bp tm max_rounds w bp.messagesRef href
  · intro client init bp tm model w lout w3 hok href
    simp only [handle_tool_execution, Store.alloc] at hok
    split at hok
    · exact Except.noConfusion hok
    · split at hok
      · exact Except.noConfusion hok
      · simp only [Except.ok.injEq, Prod.mk.injEq] at hok
        obtain ⟨hlout, hw3⟩ := hok
        subst hw3
        by_cases her : (execute_tools tm init.content).1 = []
        · simp only [her, if_true]
          rw [Store.read_write_ne _ _ _ _ (Nat.ne_of_lt href)]
          exact Store.read_append_ne w.store _ bp.messagesRef (Nat.ne_of_lt href)
        · simp only [her, if_false]
          rw [Store.read_write_ne _ _ _ _ (Nat.ne_of_lt href)]
          rw [Store.read_write_ne _ _ _ _ (Nat.ne_of_lt href)]
          exact Store.read_append_ne w.store _ bp.messagesRef (Nat.ne_of_lt href)
  · intro client model query hist tools tmo w out w2 hok
    simp only [generate_response, generate_response_with, Store.alloc] at hok
    split at hok
    · exact Except.noConfusion hok
    · split at hok
      · split at hok
        · split at hok
          · rename_i out1 w3 heq
            simp only [Except.ok.injEq, Prod.mk.injEq] at hok
            obtain ⟨hout, hw2⟩ := hok
            subst hout
            subst hw2
            simp only [default_seq_handler, Except.ok.injEq] at heq
            have hw3 := congrArg Prod.snd heq
            simp only at hw3
            rw [← hw3]
            exact (handler_store_frame client _ _ _ 2
              { store := w.store ++
                  [[{ role := "user", content := MessageContent.text query }]],
                calls := w.calls + 1 } w.store.length (by simp)).trans
              (Store.read_append_self w.store _)
          · rename_i e heq
            simp only [default_seq_handler] at heq
            exact Except.noConfusion heq
        · split at hok
          · exact Except.noConfusion hok
          · simp only [Except.ok.injEq, Prod.mk.injEq] at hok
            obtain ⟨hout, hw2⟩ := hok
            subst hout
            subst hw2
            exact Store.read_append_self w.store _
      · split at hok
        · exact Except.noConfusion hok
        · simp only [Except.ok.injEq, Prod.mk.injEq] at hok
          obtain ⟨hout, hw2⟩ := hok
          subst hout
          subst hw2
          exact Store.read_append_self w.store _

/-- Witness for C10: all three parts at concrete runs. -/
theorem c10_base_params_messages_unchanged_witness :
    (Store.read (handle_sequential_tool_execution fixtureClientTool fixtureToolResponse
        fixtureBp fixtureTm 2 fixtureWorld).2.store fixtureBp.messagesRef =
      Store.read fixtureWorld.store fixtureBp.messagesRef) ∧
    (Store.read
        ({ store := [[{ role := "user", content := MessageContent.text "test" }],
                     [{ role := "user", content := MessageContent.text "test" },
                      { role := "assistant",
                        content := MessageContent.blocks [fixtureToolBlock] },
                      { role := "user",
                        content := MessageContent.results
                          [{ type := "tool_result", tool_use_id := "tool_1",
                             content := "Mock search results" }] }]],
           calls := 1 } : World).store fixtureBp.messagesRef =
      Store.read fixtureWorld.store fixtureBp.messagesRef) ∧
    (Store.read
        ({ store := [[{ role := "user", content := MessageContent.text "test" }],
                     [{ role := "user", content := MessageContent.text "q" }]],
           calls := 1 } : World).store
        ({ text := "final answer",
           requests := [{ model := "test-model", temperature := 0, max_tokens := 800,
                          messages := [{ role := "user", content := MessageContent.text "q" }],
                          system := SYSTEM_PROMPT, tools := some ["search_course_content"],
                          tool_choice := some "auto" }],
           toolCalls := [], msgsRef := 1 } : GenOut).msgsRef =
      [{ role := "user", content := MessageContent.text "q" }]) :=
  ⟨c10_base_params_messages_unchanged.1 fixtureClientTool fixtureToolResponse fixtureBp
      fixtureTm 2 fixtureWorld (by decide),
   c10_base_params_messages_unchanged.2.1 fixtureClientEnd fixtureToolResponse fixtureBp
      fixtureTm "test-model" fixtureWorld
      { text := "final answer",
        finalRequest :=
          { model := "test-model", temperature := 0, max_tokens := 800,
            messages := [{ role := "user", content := MessageContent.text "test" },
                         { role := "assistant",
                           content := MessageContent.blocks [fixtureToolBlock] },
                         { role := "user",
                           content := MessageContent.results
                             [{ type := "tool_result", tool_use_id := "tool_1",
                                content := "Mock search results" }] }],
            system := "system", tools := none, tool_choice := none },
        toolCalls := [("search_course_content", [("query", "test")])] }
      { store := [[{ role := "user", content := MessageContent.text "test" }],
                  [{ role := "user", content := MessageContent.text "test" },
                   { role := "assistant",
                     content := MessageContent.blocks [fixtureToolBlock] },
                   { role := "user",
                     content := MessageContent.results
                       [{ type := "tool_result", tool_use_id := "tool_1",
                          content := "Mock search results" }] }]],
        calls := 1 } rfl (by decide),
   c10_base_params_messages_unchanged.2.2 fixtureClientEnd "test-model" "q" none
      (some ["search_course_content"]) (some fixtureTm) fixtureWorld
      { text := "final answer",
        requests := [{ model := "test-model", temperature := 0, max_tokens := 800,
                       messages := [{ role := "user", content := MessageContent.text "q" }],
                       system := SYSTEM_PROMPT, tools := some ["search_course_content"],
                       tool_choice := some "auto" }],
        toolCalls := [], msgsRef := 1 }
      { store := [[{ role := "user", content := MessageContent.text "test" }],
                  [{ role := "user", content := MessageContent.text "q" }]], calls := 1 }
      rfl⟩

/-- Counterexample to C1 as stated: a client whose every response has stop
reason `"tool_use"` but carries no `tool_use` content block.  The handler
with `max_rounds = 2` then makes zero model calls inside the loop (the
round breaks on the empty executed-call list), not exactly two. -/
theorem c1_counterexample_zero_loop_calls :
    fixtureEmptyCallsResponse.stop_reason = "tool_use" ∧
    (handle_sequential_tool_execution (fun _ _ => Except.ok fixtureEmptyCallsResponse)
        fixtureEmptyCallsResponse fixtureBp fixtureTm 2 fixtureWorld).1.loopRequests = [] ∧
    (handle_sequential_tool_execution (fun _ _ => Except.ok fixtureEmptyCallsResponse)
        fixtureEmptyCallsResponse fixtureBp fixtureTm 2 fixtureWorld).2.calls =
      fixtureWorld.calls := by
  refine ⟨rfl, ?_, ?_⟩ <;> decide
